import Mathlib

/-!
Verification development for the quota-aware YouTube collection-and-scoring
pipeline (`youtubetest3.py`, class `YouTubeAnalytics`).

The Python code is shallowly embedded as executable Lean definitions:

* machine integers become `ℕ`/`ℤ` (Python ints are unbounded, so no modular
  wrap is needed);
* float arithmetic on view/like/comment ratios becomes exact `ℚ` arithmetic;
* `raise`/`except` control flow becomes `Except PyError`;
* the three remote YouTube operations are abstracted as an environment record
  (`CollectEnv`) holding the responses the remote side would produce, so that
  `collect_videos_data` is a pure function of its environment and state.

Streamlit/Supabase presentation code, authentication and the LLM prompts are
out of scope (the spec declares them external collaborators); only the
pipeline functions named by the claims are embedded.
-/

/-- The distinct raising sites in the Python code.  Python raises plain
`Exception` everywhere, but the three sites are distinguishable in principle:
the quota guard raises `Exception("일일 API 할당량 초과")`, remote API calls
raise HTTP errors, and `int(...)` on a non-numeric statistics value raises
`ValueError`.  All of them are subclasses of `Exception`, which is exactly
what the `except Exception` handlers catch. -/
inductive PyError where
  | quotaExceeded
  | remoteFailure
  | valueError
deriving DecidableEq, Repr

/-- The process-scoped quota counters (`self.quota_limit`, `self.quota_used`). -/
structure QuotaState where
  quota_limit : ℕ
  quota_used : ℕ
deriving DecidableEq, Repr

/-- `check_quota` (lines 66-71): raises when `quota_used + cost > quota_limit`,
otherwise debits `cost` in the same step and succeeds.  On error the returned
computation carries no new state, i.e. `quota_used` is not mutated. -/
def check_quota (s : QuotaState) (cost : ℕ) : Except PyError QuotaState :=
  if s.quota_limit < s.quota_used + cost then Except.error PyError.quotaExceeded
  else Except.ok { s with quota_used := s.quota_used + cost }

/-- Runs a sequence of `check_quota` reservations.  The first failing call
stops the run (in Python the exception propagates to the caller) and leaves
the state as it was just before that call. -/
def runReserves (s : QuotaState) : List ℕ → QuotaState
  | [] => s
  | c :: cs =>
    match check_quota s c with
    | Except.ok s2 => runReserves s2 cs
    | Except.error _ => s

/-- One video record as assembled by `collect_videos_data`.  In Python this is
a dict; the statistics keys are read back with `video.get('views', 0)`-style
defaults, which the `:= 0` field defaults reproduce. -/
structure Video where
  id : String
  title : String
  publishedAt : ℤ
  description : String
  comments_data : List String := []
  views : ℕ := 0
  likes : ℕ := 0
  comments : ℕ := 0
  duration : String := ""
deriving DecidableEq, Repr

/-- `comment_ratio = (comments / views * 100) if views > 0 else 0`
(line 246). -/
def commentRatioOf (v : Video) : ℚ :=
  if 0 < v.views then (v.comments : ℚ) / (v.views : ℚ) * 100 else 0

/-- `like_ratio = (likes / views * 100) if views > 0 else 0` (line 252). -/
def likeRatioOf (v : Video) : ℚ :=
  if 0 < v.views then (v.likes : ℚ) / (v.views : ℚ) * 100 else 0

/-- The `comment_ratios` batch list (lines 226-229): the ratio of every video
with `views > 0`. -/
def commentRatios (videos : List Video) : List ℚ :=
  (videos.filter (fun v => decide (0 < v.views))).map
    (fun v => (v.comments : ℚ) / (v.views : ℚ) * 100)

/-- `np.mean`.  For the empty list NumPy yields NaN while this returns `0`
(division by zero in `ℚ`); inside the pipeline the empty case arises only when
every video has `views = 0`, and then every comparison against the threshold
is false under both conventions (see the outlier theorems). -/
def mean (xs : List ℚ) : ℚ := xs.sum / (xs.length : ℚ)

/-- The square of `np.std` (population standard deviation, `ddof = 0`):
the mean squared deviation from the mean. -/
def variance (xs : List ℚ) : ℚ := mean (xs.map (fun x => (x - mean xs) ^ 2))

/-- The outlier test of lines 230-232 / 249: `comment_ratio > threshold` with
`threshold = avg_ratio + 2 * std_ratio`.  Since `std = √variance` is
irrational in general, the strictly-greater comparison is embedded by its
exact square-free equivalent over `ℚ`:
`r > m + 2·√var  ↔  m < r ∧ 4·var < (r − m)²` (proved as
`outlier_iff_sqrt` below, so the embedding is tied back to the source
formula `mean + 2 * std`). -/
def isOutlier (rs : List ℚ) (r : ℚ) : Bool :=
  decide (mean rs < r) && decide (4 * variance rs < (r - mean rs) ^ 2)

/-- `recency_score` test (lines 234, 253): published strictly after
`datetime.now() - timedelta(days=7)`.  Timestamps are epoch seconds. -/
def isRecent (now : ℤ) (v : Video) : Bool :=
  decide (now - 7 * 86400 < v.publishedAt)

/-- A video enriched with the scoring fields that lines 260-263 add to the
dict. -/
structure ScoredVideo where
  video : Video
  comment_ratio : ℚ
  like_ratio : ℚ
  is_recent : Bool
  engagement_score : ℚ
deriving DecidableEq, Repr

/-- Lines 246-263: the per-video enrichment step.  `1.2` is the exact `6/5`. -/
def scoreVideo (now : ℤ) (v : Video) : ScoredVideo :=
  let comment_ratio := commentRatioOf v
  let like_ratio := likeRatioOf v
  let recency_score : ℚ := if isRecent now v then 6 / 5 else 1
  { video := v
    comment_ratio := comment_ratio
    like_ratio := like_ratio
    is_recent := isRecent now v
    engagement_score := (like_ratio + comment_ratio * 3) * recency_score }

/-- Stable descending insertion: place `a` before the first element whose
score is `≤` its own.  `sortByScoreDesc` below is then exactly a stable sort
descending by `engagement_score`, the semantics of Python's
`sorted(key=..., reverse=True)` (line 272-276). -/
def insertByScore (a : ScoredVideo) : List ScoredVideo → List ScoredVideo
  | [] => [a]
  | b :: l =>
    if b.engagement_score ≤ a.engagement_score then a :: b :: l
    else b :: insertByScore a l

/-- Stable sort, descending by `engagement_score`. -/
def sortByScoreDesc (l : List ScoredVideo) : List ScoredVideo :=
  l.foldr insertByScore []

/-- The descending-sort relation on scored videos. -/
def scoreGE (x y : ScoredVideo) : Prop :=
  ScoredVideo.engagement_score y ≤ ScoredVideo.engagement_score x

/-- `calculate_engagement_scores` (lines 221-276): outlier removal by the
batch comment-ratio threshold, per-video scoring, stable descending sort,
truncation to the top 20.  The Python per-video `try/except` skip never fires
in the embedding because every record field is total here. -/
def calculate_engagement_scores (now : ℤ) (videos : List Video) :
    List ScoredVideo :=
  if videos.isEmpty then []
  else
    let rs := commentRatios videos
    let survivors := videos.filter (fun v => ! isOutlier rs (commentRatioOf v))
    (sortByScoreDesc (survivors.map (scoreVideo now))).take 20

/-- One hit of `youtube.search().list` (`id` + `snippet`), with
`publishedAt` already parsed to a UTC epoch timestamp. -/
structure SearchItem where
  id : String
  title : String
  publishedAt : ℤ
  description : String
deriving DecidableEq, Repr

/-- A statistics field of the `videos().list` response: absent, a numeric
value, or present but not parseable by `int(...)`. -/
inductive StatVal where
  | missing
  | num (n : ℕ)
  | nonNumeric
deriving DecidableEq, Repr

/-- One item of the `videos().list` batch statistics response. -/
structure StatsItem where
  id : String
  viewCount : StatVal
  likeCount : StatVal
  commentCount : StatVal
  duration : String
deriving DecidableEq, Repr

/-- The abstracted remote side plus the evaluation instant: what
`youtube.search().list`, `youtube.videos().list` and
`youtube.commentThreads().list` would answer (each possibly failing), and
`datetime.now()` as an epoch timestamp. -/
structure CollectEnv where
  now : ℤ
  searchResp : Except PyError (List SearchItem)
  videosResp : Except PyError (List StatsItem)
  commentsResp : String → Except PyError (List String)

/-- Lines 146-159: the partial record built from one search hit. -/
def mkPartial (it : SearchItem) : Video :=
  { id := it.id
    title := it.title
    publishedAt := it.publishedAt
    description := it.description }

/-- `int(stats.get(key, 0))` (lines 198-200): a missing field defaults to
`0`; a present numeric value is taken as is; a non-numeric value makes
`int(...)` raise `ValueError`. -/
def parseCount : StatVal → Except PyError ℕ
  | StatVal.missing => Except.ok 0
  | StatVal.num n => Except.ok n
  | StatVal.nonNumeric => Except.error PyError.valueError

/-- Lines 175-190: one iteration of the comment loop.  The per-item
`try/except` turns any failure — `check_quota(1)` raising (before the debit)
or the comment API call failing (after the debit) — into an empty
`comments_data`, and the loop proceeds. -/
def fetchComments (env : CollectEnv) (q : QuotaState) (v : Video) :
    Video × QuotaState :=
  match check_quota q 1 with
  | Except.error _ => ({ v with comments_data := [] }, q)
  | Except.ok q2 =>
    match env.commentsResp v.id with
    | Except.error _ => ({ v with comments_data := [] }, q2)
    | Except.ok cs => ({ v with comments_data := cs }, q2)

/-- The whole per-video comment loop, threading the quota state. -/
def commentLoop (env : CollectEnv) (q : QuotaState) :
    List Video → List Video × QuotaState
  | [] => ([], q)
  | v :: rest =>
    let p := fetchComments env q v
    let pr := commentLoop env p.2 rest
    (p.1 :: pr.1, pr.2)

/-- Lines 192-202, inner loop body: join one statistics item onto a video
record when the ids match.  The four `int(...)` parses happen before the
`update`, so a `ValueError` leaves the record untouched and propagates. -/
def applyStats (sd : StatsItem) (v : Video) : Except PyError Video :=
  if v.id = sd.id then
    match parseCount sd.viewCount with
    | Except.error e => Except.error e
    | Except.ok vs =>
      match parseCount sd.likeCount with
      | Except.error e => Except.error e
      | Except.ok ls =>
        match parseCount sd.commentCount with
        | Except.error e => Except.error e
        | Except.ok cs =>
          Except.ok
            { v with views := vs, likes := ls, comments := cs,
                     duration := sd.duration }
  else Except.ok v

/-- The inner `for video in videos:` loop of lines 194-202 for one
statistics item, left to right; the first `ValueError` aborts it. -/
def applyStatsList (sd : StatsItem) : List Video → Except PyError (List Video)
  | [] => Except.ok []
  | v :: rest =>
    match applyStats sd v with
    | Except.error e => Except.error e
    | Except.ok v2 =>
      match applyStatsList sd rest with
      | Except.error e => Except.error e
      | Except.ok rest2 => Except.ok (v2 :: rest2)

/-- Lines 192-202: the statistics join over the whole batch response. -/
def mergeStats : List StatsItem → List Video → Except PyError (List Video)
  | [], vs => Except.ok vs
  | sd :: rest, vs =>
    match applyStatsList sd vs with
    | Except.error e => Except.error e
    | Except.ok vs2 => mergeStats rest vs2

/-- The mutable instance state touched by `collect_videos_data`: the quota
counters and `self.cache` (an assoc list, newest entry first). -/
structure AppState where
  quota : QuotaState
  cache : List (String × List ScoredVideo)
deriving DecidableEq

/-- Lookup in `self.cache`. -/
def lookupA (c : List (String × List ScoredVideo)) (k : String) :
    Option (List ScoredVideo) :=
  match c with
  | [] => none
  | (k2, v) :: rest => if k2 = k then some v else lookupA rest k

/-- `cache_key = f"{self.keyword}_{self.date_range}"` (line 122). -/
def cacheKey (keyword : String) (date_range : ℕ) : String :=
  keyword ++ "_" ++ toString date_range

/-- The body of the `try:` block of `collect_videos_data` (lines 128-215),
returning either the processed result or the raised error, together with the
quota state at that moment (debits made before a failure persist).  The
`date_limit` computation and the `min(50, max_results)` page size only shape
the request parameters, which are abstracted into `env.searchResp`. -/
def collectBody (env : CollectEnv) (q0 : QuotaState) :
    Except PyError (List ScoredVideo) × QuotaState :=
  match check_quota q0 100 with
  | Except.error e => (Except.error e, q0)
  | Except.ok q1 =>
    match env.searchResp with
    | Except.error e => (Except.error e, q1)
    | Except.ok items =>
      let videos := items.map mkPartial
      let video_ids := items.map SearchItem.id
      if video_ids.isEmpty then
        (Except.ok (calculate_engagement_scores env.now
          (videos.filter (fun v => decide (1000 ≤ v.views)))), q1)
      else
        match check_quota q1 video_ids.length with
        | Except.error e => (Except.error e, q1)
        | Except.ok q2 =>
          match env.videosResp with
          | Except.error e => (Except.error e, q2)
          | Except.ok stats =>
            let cl := commentLoop env q2 videos
            match mergeStats stats cl.1 with
            | Except.error e => (Except.error e, cl.2)
            | Except.ok merged =>
              (Except.ok (calculate_engagement_scores env.now
                (merged.filter (fun v => decide (1000 ≤ v.views)))), cl.2)

/-- `collect_videos_data` (lines 121-219).  Cache hit short-circuits before
the `try:`; a successful run stores its result under the key; the
`except Exception` handler displays the error and returns `[]`, keeping the
cache untouched but keeping any quota debits already made. -/
def collect_videos_data (env : CollectEnv) (keyword : String)
    (date_range : ℕ) (s : AppState) : List ScoredVideo × AppState :=
  match lookupA s.cache (cacheKey keyword date_range) with
  | some r => (r, s)
  | none =>
    match collectBody env s.quota with
    | (Except.ok processed, q) =>
      (processed,
        { quota := q,
          cache := (cacheKey keyword date_range, processed) :: s.cache })
    | (Except.error _, q) => ([], { quota := q, cache := s.cache })

/-- One row of the DataFrame handed to the temporal aggregators:
`date` (the publish instant, epoch seconds UTC), the raw counts and the
engagement score. -/
structure StatRow where
  date : ℤ
  views : ℕ
  comments : ℕ
  likes : ℕ
  engagement_score : ℚ
deriving DecidableEq, Repr

/-- `df['date'].dt.hour` after `tz_convert('Asia/Seoul')`: KST is a fixed
UTC+9 offset (no daylight saving). -/
def seoulHour (t : ℤ) : ℕ := ((t + 9 * 3600) / 3600 % 24).toNat

/-- `df['date'].dt.day_name()` after conversion to Asia/Seoul, as an index
with Monday = 0 … Sunday = 6 (1970-01-01 was a Thursday, index 3). -/
def seoulWeekday (t : ℤ) : ℕ := (((t + 9 * 3600) / 86400 + 3) % 7).toNat

/-- One aggregate row of `weekday_stats` / `hourly_stats`.  `none` models a
NaN cell (as produced by `reindex` for a label with no data); the Korean
column names of lines 305-306 map to the fields in the same order:
평균_조회수, 총_조회수, 영상수, 평균_댓글수, 총_댓글수, 평균_좋아요수,
총_좋아요수, 평균_참여도. -/
structure BucketRow where
  mean_views : Option ℚ
  sum_views : Option ℚ
  video_count : Option ℚ
  mean_comments : Option ℚ
  sum_comments : Option ℚ
  mean_likes : Option ℚ
  sum_likes : Option ℚ
  mean_engagement : Option ℚ
deriving DecidableEq, Repr

/-- `.round(2)`.  NumPy rounds half to even while `round` here rounds half
up; the two differ only on exact half-cent ties, which none of the theorems
below depend on. -/
def round2 (x : ℚ) : ℚ := ((round (x * 100) : ℤ) : ℚ) / 100

/-- The `groupby(...).agg(...)` row of a nonempty group (lines 298-303 /
327-332). -/
def aggRow (rows : List StatRow) : BucketRow :=
  { mean_views := some (round2 (mean (rows.map (fun r => (r.views : ℚ)))))
    sum_views := some (round2 (rows.map (fun r => (r.views : ℚ))).sum)
    video_count := some (round2 ((rows.length : ℚ)))
    mean_comments := some (round2 (mean (rows.map (fun r => (r.comments : ℚ)))))
    sum_comments := some (round2 (rows.map (fun r => (r.comments : ℚ))).sum)
    mean_likes := some (round2 (mean (rows.map (fun r => (r.likes : ℚ)))))
    sum_likes := some (round2 (rows.map (fun r => (r.likes : ℚ))).sum)
    mean_engagement := some (round2 (mean (rows.map StatRow.engagement_score))) }

/-- The all-NaN row that `reindex` produces for a label with no members. -/
def emptyBucketRow : BucketRow :=
  ⟨none, none, none, none, none, none, none, none⟩

/-- The all-zero row after `fillna(0)`. -/
def zeroBucketRow : BucketRow :=
  ⟨some 0, some 0, some 0, some 0, some 0, some 0, some 0, some 0⟩

/-- `weekday_order` (line 291) paired with the weekday index each Korean
name denotes. -/
def weekdayOrder : List (String × ℕ) :=
  [("월요일", 0), ("화요일", 1), ("수요일", 2), ("목요일", 3),
   ("금요일", 4), ("토요일", 5), ("일요일", 6)]

/-- `calculate_weekday_stats` (lines 278-313): group by Seoul-time weekday,
aggregate, translate the index to Korean and `reindex` to the fixed
Monday→Sunday order.  There is no `fillna` on this path, so a weekday with
no members keeps the NaN row that `reindex` introduces. -/
def calculate_weekday_stats (rows : List StatRow) : List (String × BucketRow) :=
  weekdayOrder.map (fun w =>
    let members := rows.filter (fun r => decide (seoulWeekday r.date = w.2))
    (w.1, if members.isEmpty then emptyBucketRow else aggRow members))

/-- `calculate_hourly_stats` (lines 315-341): group by Seoul-time hour,
aggregate, `reindex` over `range(24)` and `fillna(0)` the missing hours. -/
def calculate_hourly_stats (rows : List StatRow) : List (ℕ × BucketRow) :=
  (List.range 24).map (fun h =>
    let members := rows.filter (fun r => decide (seoulHour r.date = h))
    (h, if members.isEmpty then zeroBucketRow else aggRow members))

/-! ### Concrete demonstration data used by witnesses and counterexamples -/

/-- A search hit used by the concrete runs below. -/
def demoSearchItem : SearchItem :=
  ⟨"vidA", "title A", 1700000000, "desc"⟩

/-- A fully numeric statistics item for `demoSearchItem`. -/
def demoStatsOk : StatsItem :=
  ⟨"vidA", StatVal.num 5000, StatVal.num 50, StatVal.num 10, "PT1M"⟩

/-- The same statistics item with a non-numeric `likeCount`. -/
def demoStatsBad : StatsItem :=
  ⟨"vidA", StatVal.num 5000, StatVal.nonNumeric, StatVal.num 10, "PT1M"⟩

/-- An environment in which every remote call succeeds. -/
def demoEnv : CollectEnv :=
  { now := 1700000000
    searchResp := Except.ok [demoSearchItem]
    videosResp := Except.ok [demoStatsOk]
    commentsResp := fun _ => Except.ok ["nice"] }

/-- `demoEnv` with the non-numeric statistics batch. -/
def demoEnvBadStats : CollectEnv :=
  { demoEnv with videosResp := Except.ok [demoStatsBad] }

/-- `demoEnv` with a failing (non-quota) search call. -/
def demoEnvSearchFail : CollectEnv :=
  { demoEnv with searchResp := Except.error PyError.remoteFailure }

/-- A fresh application state: full daily quota, empty cache. -/
def freshState : AppState := ⟨⟨10000, 0⟩, []⟩

/-- A state whose remaining quota (50 units) cannot cover the 100-unit
search reservation. -/
def lowQuotaState : AppState := ⟨⟨10000, 9950⟩, []⟩

/-- The record `demoEnv`'s successful run assembles for `demoSearchItem`. -/
def demoVideoFull : Video :=
  { id := "vidA", title := "title A", publishedAt := 1700000000,
    description := "desc", comments_data := ["nice"], views := 5000,
    likes := 50, comments := 10, duration := "PT1M" }

/-- Its scored form: comment ratio `1/5`, like ratio `1`, recent, score
`(1 + 3/5) · 6/5 = 48/25`. -/
def demoScored : ScoredVideo := ⟨demoVideoFull, 1/5, 1, true, 48/25⟩

/-- The result list of the successful demo run. -/
def demoResult : List ScoredVideo := [demoScored]

/-- The quota state after the successful demo run: 100 (search) + 1
(statistics batch) + 1 (comments) units. -/
def demoQuotaAfter : QuotaState := ⟨10000, 102⟩

/-- A statistics item whose `likeCount` is absent while the other two fields
are numeric — the mixed absence case. -/
def demoStatsLikesMissing : StatsItem :=
  ⟨"vidA", StatVal.num 5000, StatVal.missing, StatVal.num 10, "PT1M"⟩

/-- `demoEnv` with the `likeCount`-absent statistics batch. -/
def demoEnvLikesMissing : CollectEnv :=
  { demoEnv with videosResp := Except.ok [demoStatsLikesMissing] }

/-- The record that run assembles: `likes` defaulted to `0`, the numeric
fields kept. -/
def demoVideoNoLikes : Video := { demoVideoFull with likes := 0 }

/-- Its scored form: like ratio `0`, comment ratio `1/5`, recent, score
`(0 + 3/5) · 6/5 = 18/25`. -/
def demoScoredNoLikes : ScoredVideo := ⟨demoVideoNoLikes, 1/5, 0, true, 18/25⟩

/-- A statistics row published at epoch 0, i.e. Thursday 09:00 KST. -/
def demoRow : StatRow := ⟨0, 2000, 10, 50, 5⟩

/-- A record with zero views (the statistics defaults). -/
def demoZeroViews : Video :=
  { id := "z", title := "t", publishedAt := 0, description := "d" }

/-- A video published at the evaluation instant (recent). -/
def demoRecentVid : Video :=
  { id := "r", title := "t", publishedAt := 1700000000, description := "",
    views := 2000, likes := 100, comments := 10 }

/-- The same counts published about 35 days earlier (not recent). -/
def demoOldVid : Video := { demoRecentVid with id := "o", publishedAt := 1697000000 }

/-- A video with comment ratio 1% (10 comments on 1000 views). -/
def demoVidA : Video :=
  { id := "a", title := "", publishedAt := 0, description := "",
    views := 1000, likes := 0, comments := 10 }

/-- A video with comment ratio 3%. -/
def demoVidB : Video := { demoVidA with id := "b", comments := 30 }

/-- A batch with distinct comment ratios (1% and 3%). -/
def demoVids : List Video := [demoVidA, demoVidB]

/-- A video with the same 1% comment ratio as `demoVidA` at other counts. -/
def demoVidC : Video := { demoVidA with id := "c", views := 2000, comments := 20 }

/-- A batch whose comment ratios are all identical (1% and 1%). -/
def demoVidsSame : List Video := [demoVidA, demoVidC]

/-- Decidable equality for collection-body outcomes, so concrete runs can be
checked by `decide`. -/
instance : DecidableEq (Except PyError (List ScoredVideo)) := fun a b =>
  match a, b with
  | Except.ok x, Except.ok y =>
    if h : x = y then isTrue (congrArg Except.ok h)
    else isFalse (fun hh => h (Except.ok.inj hh))
  | Except.error x, Except.error y =>
    if h : x = y then isTrue (congrArg Except.error h)
    else isFalse (fun hh => h (Except.error.inj hh))
  | Except.ok _, Except.error _ => isFalse (fun hh => Except.noConfusion hh)
  | Except.error _, Except.ok _ => isFalse (fun hh => Except.noConfusion hh)

/-! ### Helper lemmas -/

/-- `runReserves` never changes the limit. -/
theorem runReserves_limit (cs : List ℕ) (s : QuotaState) :
    (runReserves s cs).quota_limit = s.quota_limit := by
  induction cs generalizing s with
  | nil => rfl
  | cons c cs ih =>
    unfold runReserves check_quota
    by_cases h : s.quota_limit < s.quota_used + c
    · simp [h]
    · simp [h, ih]

/-- If the invariant holds before a run of reservations it holds after it. -/
theorem runReserves_used_le (cs : List ℕ) (s : QuotaState)
    (h : s.quota_used ≤ s.quota_limit) :
    (runReserves s cs).quota_used ≤ s.quota_limit := by
  induction cs generalizing s with
  | nil => exact h
  | cons c cs ih =>
    unfold runReserves check_quota
    by_cases hc : s.quota_limit < s.quota_used + c
    · simp [hc]; exact h
    · simp [hc]
      exact ih { s with quota_used := s.quota_used + c }
        (show s.quota_used + c ≤ s.quota_limit by omega)

/-- Case computation: a cache hit returns the stored value verbatim. -/
theorem collect_hit (env : CollectEnv) (keyword : String) (date_range : ℕ)
    (s : AppState) (r : List ScoredVideo)
    (h : lookupA s.cache (cacheKey keyword date_range) = some r) :
    collect_videos_data env keyword date_range s = (r, s) := by
  unfold collect_videos_data
  rw [h]

/-- Case computation: a miss whose body fails returns `[]` and leaves the
cache untouched (only the quota debits made before the failure remain). -/
theorem collect_err (env : CollectEnv) (keyword : String) (date_range : ℕ)
    (s : AppState) (e : PyError) (q : QuotaState)
    (hm : lookupA s.cache (cacheKey keyword date_range) = none)
    (hb : collectBody env s.quota = (Except.error e, q)) :
    collect_videos_data env keyword date_range s =
      ([], { quota := q, cache := s.cache }) := by
  unfold collect_videos_data
  rw [hm, hb]

/-- Case computation: a miss whose body succeeds stores the result under the
key and returns it. -/
theorem collect_ok (env : CollectEnv) (keyword : String) (date_range : ℕ)
    (s : AppState) (res : List ScoredVideo) (q : QuotaState)
    (hm : lookupA s.cache (cacheKey keyword date_range) = none)
    (hb : collectBody env s.quota = (Except.ok res, q)) :
    collect_videos_data env keyword date_range s =
      (res, { quota := q,
              cache := (cacheKey keyword date_range, res) :: s.cache }) := by
  unfold collect_videos_data
  rw [hm, hb]

/-! ### C1 — the quota ledger -/

/-- C1: for every non-negative cost, `check_quota` fails exactly when
`used + cost > limit` — and then leaves the state untouched, also as the
first failing call of a longer run — otherwise it debits exactly `cost` in
one step; and along any run of reservations started inside the invariant,
`quota_used` never exceeds the limit. -/
theorem check_quota_reserve_spec (s : QuotaState) (cost : ℕ) (cs : List ℕ) :
    (s.quota_limit < s.quota_used + cost →
      check_quota s cost = Except.error PyError.quotaExceeded ∧
      runReserves s (cost :: cs) = s) ∧
    (s.quota_used + cost ≤ s.quota_limit →
      check_quota s cost = Except.ok ⟨s.quota_limit, s.quota_used + cost⟩) ∧
    (s.quota_used ≤ s.quota_limit →
      ∀ cs2 : List ℕ, (runReserves s cs2).quota_used ≤ s.quota_limit) := by
  refine ⟨fun h => ⟨?_, ?_⟩, fun h => ?_, fun h cs2 => runReserves_used_le cs2 s h⟩
  · simp [check_quota, h]
  · simp [runReserves, check_quota, h]
  · simp [check_quota, Nat.not_lt.mpr h]

/-- C1 witness: concrete failing call (9950 + 100 > 10000, state kept, also
as head of a run), concrete successful debit, concrete run staying within
the limit. -/
theorem check_quota_reserve_spec_witness :
    (check_quota ⟨10000, 9950⟩ 100 = Except.error PyError.quotaExceeded ∧
      runReserves ⟨10000, 9950⟩ [100, 1] = ⟨10000, 9950⟩) ∧
    check_quota ⟨10000, 0⟩ 100 = Except.ok ⟨10000, 100⟩ ∧
    (runReserves ⟨10000, 0⟩ [100, 50, 9900]).quota_used ≤ 10000 :=
  ⟨(check_quota_reserve_spec ⟨10000, 9950⟩ 100 [1]).1 (by decide),
   (check_quota_reserve_spec ⟨10000, 0⟩ 100 []).2.1 (by decide),
   (check_quota_reserve_spec ⟨10000, 0⟩ 100 []).2.2 (by decide) [100, 50, 9900]⟩

/-! ### C2 — quota failures are NOT a distinct outcome of `collect` -/

/-- C2 counterexample: a run whose 100-unit search reservation exhausts the
quota and a run whose search call fails for a non-quota reason produce the
very same caller-visible outcome `[]` — the `except Exception` handler of
`collect_videos_data` catches the quota exception too, so the caller cannot
tell "budget exhausted" from "no data". -/
theorem collect_quota_not_distinct_cex :
    (collect_videos_data demoEnv "k" 12 lowQuotaState).1 = [] ∧
    (collect_videos_data demoEnvSearchFail "k" 12 freshState).1 = [] ∧
    (collect_videos_data demoEnv "k" 12 lowQuotaState).1 =
      (collect_videos_data demoEnvSearchFail "k" 12 freshState).1 :=
  ⟨rfl, rfl, rfl⟩

/-- C2 amended: every failure raised inside the collection body — quota
exhaustion included — is reported to the caller as the same recoverable
empty result with the cache untouched; the caller cannot distinguish
quota exhaustion from a non-quota remote failure from the result of
`collect_videos_data` (only the displayed error text differs). -/
theorem collect_error_uniform_empty (env : CollectEnv) (keyword : String)
    (date_range : ℕ) (s : AppState) (e : PyError) (q : QuotaState)
    (hm : lookupA s.cache (cacheKey keyword date_range) = none)
    (hb : collectBody env s.quota = (Except.error e, q)) :
    collect_videos_data env keyword date_range s =
      ([], { quota := q, cache := s.cache }) :=
  collect_err env keyword date_range s e q hm hb

/-- C2 amended witness: the quota-exhausted concrete run ends in the uniform
empty outcome. -/
theorem collect_error_uniform_empty_witness :
    collect_videos_data demoEnv "k" 12 lowQuotaState =
      ([], { quota := ⟨10000, 9950⟩, cache := [] }) :=
  collect_error_uniform_empty demoEnv "k" 12 lowQuotaState
    PyError.quotaExceeded ⟨10000, 9950⟩ rfl rfl

/-! ### C6 — the cache-hit path -/

/-- C6: a first successful collection stores its result under the exact
`(keyword, date_range)` key, and any second call with the identical pair
returns the stored result with the state — in particular `quota_used` —
unchanged; the second call's result does not depend on the environment
(`env2` is arbitrary), so no reservation and no remote call happens on the
cache-hit path. -/
theorem collect_cache_idempotent_spec (env env2 : CollectEnv)
    (keyword : String) (date_range : ℕ) (s : AppState)
    (res : List ScoredVideo) (q : QuotaState)
    (hm : lookupA s.cache (cacheKey keyword date_range) = none)
    (hb : collectBody env s.quota = (Except.ok res, q)) :
    collect_videos_data env keyword date_range s =
      (res, ⟨q, (cacheKey keyword date_range, res) :: s.cache⟩) ∧
    collect_videos_data env2 keyword date_range
        ⟨q, (cacheKey keyword date_range, res) :: s.cache⟩ =
      (res, ⟨q, (cacheKey keyword date_range, res) :: s.cache⟩) := by
  refine ⟨collect_ok env keyword date_range s res q hm hb, ?_⟩
  exact collect_hit env2 keyword date_range _ res (by simp [lookupA])

/-- C6 witness: the concrete successful run stores `demoResult`; re-running
with the same key against an environment in which every remote call would
fail still returns `demoResult` and leaves `quota_used` at 102. -/
theorem collect_cache_idempotent_spec_witness :
    collect_videos_data demoEnv "k" 12 freshState =
      (demoResult, ⟨demoQuotaAfter, [(cacheKey "k" 12, demoResult)]⟩) ∧
    collect_videos_data demoEnvSearchFail "k" 12
        ⟨demoQuotaAfter, [(cacheKey "k" 12, demoResult)]⟩ =
      (demoResult, ⟨demoQuotaAfter, [(cacheKey "k" 12, demoResult)]⟩) :=
  collect_cache_idempotent_spec demoEnv demoEnvSearchFail "k" 12 freshState
    demoResult demoQuotaAfter rfl
    (by norm_num [collectBody, check_quota, demoEnv, demoSearchItem, demoStatsOk,
      mkPartial, commentLoop, fetchComments, applyStatsList, mergeStats, applyStats,
      parseCount, calculate_engagement_scores, commentRatios, mean, variance,
      isOutlier, commentRatioOf, likeRatioOf, scoreVideo, isRecent, sortByScoreDesc,
      insertByScore, demoResult, demoScored, demoVideoFull, demoQuotaAfter,
      freshState])

/-- The successful concrete run evaluated once, shared by several concrete
checks: 102 quota units consumed, one scored record produced. -/
theorem collectBody_demo_run :
    collectBody demoEnv freshState.quota = (Except.ok demoResult, demoQuotaAfter) := by
  norm_num [collectBody, check_quota, demoEnv, demoSearchItem, demoStatsOk,
    mkPartial, commentLoop, fetchComments, applyStatsList, mergeStats, applyStats,
    parseCount, calculate_engagement_scores, commentRatios, mean, variance,
    isOutlier, commentRatioOf, likeRatioOf, scoreVideo, isRecent, sortByScoreDesc,
    insertByScore, demoResult, demoScored, demoVideoFull, demoQuotaAfter,
    freshState]

/-! ### C7 — missing vs non-numeric statistics fields -/

/-- C7 counterexample: with `likeCount` non-numeric (and `viewCount` a healthy
5000), the claim predicts a record with `likes = 0` in the output, but the
`int(...)` call raises `ValueError` and the whole collection attempt fails
with `[]`; the identical run with a numeric `likeCount` returns one record,
so the failure is caused exactly by the non-numeric value. -/
theorem stats_non_numeric_cex :
    (collect_videos_data demoEnvBadStats "k" 12 freshState).1 = [] ∧
    (collect_videos_data demoEnv "k" 12 freshState).1 = [demoScored] := by
  constructor
  · rfl
  · rw [collect_ok demoEnv "k" 12 freshState demoResult demoQuotaAfter rfl
      collectBody_demo_run]
    rfl

/-- The `likeCount`-absent concrete run evaluated once: it succeeds, with
the absent field defaulted to zero and the same 102 quota units consumed. -/
theorem collectBody_demo_likes_missing :
    collectBody demoEnvLikesMissing freshState.quota =
      (Except.ok [demoScoredNoLikes], demoQuotaAfter) := by
  norm_num [collectBody, check_quota, demoEnvLikesMissing, demoEnv, demoSearchItem,
    demoStatsLikesMissing, mkPartial, commentLoop, fetchComments, applyStatsList,
    mergeStats, applyStats, parseCount, calculate_engagement_scores, commentRatios,
    mean, variance, isOutlier, commentRatioOf, likeRatioOf, scoreVideo, isRecent,
    sortByScoreDesc, insertByScore, demoScoredNoLikes, demoVideoNoLikes,
    demoVideoFull, demoQuotaAfter, freshState]

/-- C7 amended: the three statistics fields are parsed independently — an
absent field defaults to zero while present numeric fields keep their
values, so a record with any mixture of absent and numeric fields is
assembled without failure and collection succeeds; but a non-numeric value
for a matched video raises `ValueError`, which aborts the whole collection
attempt with the empty result. -/
theorem stats_missing_default_spec (sd : StatsItem) (v : Video)
    (hid : v.id = sd.id) :
    parseCount StatVal.missing = Except.ok 0 ∧
    (∀ n : ℕ, parseCount (StatVal.num n) = Except.ok n) ∧
    (∀ vs ls cs : ℕ,
      parseCount sd.viewCount = Except.ok vs →
      parseCount sd.likeCount = Except.ok ls →
      parseCount sd.commentCount = Except.ok cs →
      applyStats sd v = Except.ok
        { v with views := vs, likes := ls, comments := cs,
                 duration := sd.duration }) ∧
    (sd.viewCount = StatVal.nonNumeric →
      applyStats sd v = Except.error PyError.valueError) ∧
    (∀ (env : CollectEnv) (keyword : String) (date_range : ℕ) (s : AppState)
        (res : List ScoredVideo) (q : QuotaState),
      lookupA s.cache (cacheKey keyword date_range) = none →
      collectBody env s.quota = (Except.ok res, q) →
      collect_videos_data env keyword date_range s =
        (res, { quota := q,
                cache := (cacheKey keyword date_range, res) :: s.cache })) ∧
    (∀ (env : CollectEnv) (keyword : String) (date_range : ℕ) (s : AppState)
        (q : QuotaState),
      lookupA s.cache (cacheKey keyword date_range) = none →
      collectBody env s.quota = (Except.error PyError.valueError, q) →
      collect_videos_data env keyword date_range s =
        ([], { quota := q, cache := s.cache })) := by
  refine ⟨rfl, fun n => rfl, fun vs ls cs h1 h2 h3 => ?_, fun h1 => ?_,
    fun env keyword date_range s res q hm hb =>
      collect_ok env keyword date_range s res q hm hb,
    fun env keyword date_range s q hm hb =>
      collect_err env keyword date_range s PyError.valueError q hm hb⟩
  · simp [applyStats, hid, h1, h2, h3]
  · simp [applyStats, hid, h1, parseCount]

/-- C7 amended witness: the mixed-absence case concretely — `likeCount`
absent, `viewCount`/`commentCount` numeric — assembles the record with
`likes = 0` and the numeric fields kept; the whole pipeline succeeds on that
batch (returning the scored record with like ratio 0); a non-numeric
`viewCount` yields `ValueError`; the concrete non-numeric run ends in the
empty result. -/
theorem stats_missing_default_spec_witness :
    applyStats demoStatsLikesMissing (mkPartial demoSearchItem) =
      Except.ok { mkPartial demoSearchItem with
        views := 5000, likes := 0, comments := 10, duration := "PT1M" } ∧
    applyStats ⟨"vidA", StatVal.nonNumeric, StatVal.num 1, StatVal.num 1, "PT1M"⟩
        (mkPartial demoSearchItem) =
      Except.error PyError.valueError ∧
    collect_videos_data demoEnvLikesMissing "k" 12 freshState =
      ([demoScoredNoLikes],
        ⟨demoQuotaAfter, [(cacheKey "k" 12, [demoScoredNoLikes])]⟩) ∧
    collect_videos_data demoEnvBadStats "k" 12 freshState =
      ([], { quota := ⟨10000, 102⟩, cache := [] }) :=
  ⟨(stats_missing_default_spec demoStatsLikesMissing
      (mkPartial demoSearchItem) rfl).2.2.1 5000 0 10 rfl rfl rfl,
   (stats_missing_default_spec
      ⟨"vidA", StatVal.nonNumeric, StatVal.num 1, StatVal.num 1, "PT1M"⟩
      (mkPartial demoSearchItem) rfl).2.2.2.1 rfl,
   (stats_missing_default_spec demoStatsLikesMissing
      (mkPartial demoSearchItem) rfl).2.2.2.2.1 demoEnvLikesMissing "k" 12
      freshState [demoScoredNoLikes] demoQuotaAfter rfl
      collectBody_demo_likes_missing,
   (stats_missing_default_spec demoStatsLikesMissing
      (mkPartial demoSearchItem) rfl).2.2.2.2.2 demoEnvBadStats "k" 12
      freshState ⟨10000, 102⟩ rfl rfl⟩

/-! ### C8 — views = 0 never divides -/

/-- C8: a record with `views = 0` reaching the scoring step raises no
division error — every scoring function here is total, mirroring the
explicit `if views > 0 else 0` guards — and both its `comment_ratio` and its
`like_ratio` are computed as `0`. -/
theorem zero_views_ratios_spec (now : ℤ) (v : Video) (h : v.views = 0) :
    (scoreVideo now v).comment_ratio = 0 ∧
    (scoreVideo now v).like_ratio = 0 := by
  simp [scoreVideo, commentRatioOf, likeRatioOf, h]

/-- C8 witness: the concrete zero-view record scores with both ratios 0. -/
theorem zero_views_ratios_spec_witness :
    (scoreVideo 0 demoZeroViews).comment_ratio = 0 ∧
    (scoreVideo 0 demoZeroViews).like_ratio = 0 :=
  zero_views_ratios_spec 0 demoZeroViews rfl

/-! ### C9 — the recency multiplier -/

/-- C9: two records with identical like and comment ratios, one recent and
one not, score in the exact ratio `6/5 = 1.2`, because
`engagement_score = (like_ratio + 3·comment_ratio) · recency` with recency
`6/5` vs `1`. -/
theorem recency_multiplier_spec (now : ℤ) (v1 v2 : Video)
    (hl : likeRatioOf v1 = likeRatioOf v2)
    (hc : commentRatioOf v1 = commentRatioOf v2)
    (h1 : isRecent now v1 = true) (h2 : isRecent now v2 = false) :
    (scoreVideo now v1).engagement_score =
      6 / 5 * (scoreVideo now v2).engagement_score := by
  simp only [scoreVideo, h1, h2, hl, hc, if_true, Bool.false_eq_true, if_false]
  ring

/-- C9 witness: the concrete recent/old pair with identical ratios scores in
the exact ratio `6/5`. -/
theorem recency_multiplier_spec_witness :
    (scoreVideo 1700000000 demoRecentVid).engagement_score =
      6 / 5 * (scoreVideo 1700000000 demoOldVid).engagement_score :=
  recency_multiplier_spec 1700000000 demoRecentVid demoOldVid rfl rfl
    (by decide) (by decide)

/-! ### C10 — quota exhaustion inside the comment loop -/

/-- C10: once the quota is exhausted (`used ≥ limit`, so `check_quota(1)`
raises), the per-item handler of the comment loop treats the quota failure
exactly like a comment-fetch failure: the video's comment list becomes `[]`,
`quota_used` is not incremented for the failed reservation, and the loop
still processes every remaining video — `commentLoop` is a total function
into `List Video × QuotaState`, so no quota error can reach the caller from
the comment stage. -/
theorem comment_quota_isolated_spec (env : CollectEnv) (q : QuotaState)
    (h : q.quota_limit ≤ q.quota_used) :
    (∀ v : Video, fetchComments env q v = ({ v with comments_data := [] }, q)) ∧
    (∀ vs : List Video,
      commentLoop env q vs =
        (vs.map (fun v => { v with comments_data := [] }), q)) := by
  have hq : check_quota q 1 = Except.error PyError.quotaExceeded := by
    unfold check_quota
    rw [if_pos (by omega)]
  constructor
  · intro v
    simp [fetchComments, hq]
  · intro vs
    induction vs with
    | nil => simp [commentLoop]
    | cons v rest ih => simp [commentLoop, fetchComments, hq, ih]

/-- C10 witness: with the quota exhausted at 100/100, the concrete video
gets an empty comment list, the counter stays at 100, and the loop finishes
the whole list. -/
theorem comment_quota_isolated_spec_witness :
    fetchComments demoEnv ⟨100, 100⟩ demoVideoFull =
      ({ demoVideoFull with comments_data := [] }, ⟨100, 100⟩) ∧
    commentLoop demoEnv ⟨100, 100⟩ [demoVideoFull] =
      ([{ demoVideoFull with comments_data := [] }], ⟨100, 100⟩) :=
  ⟨(comment_quota_isolated_spec demoEnv ⟨100, 100⟩ (by decide)).1 demoVideoFull,
   (comment_quota_isolated_spec demoEnv ⟨100, 100⟩ (by decide)).2 [demoVideoFull]⟩

/-! ### Sorting lemmas for C3 -/

/-- Inserting adds exactly one element. -/
theorem length_insertByScore (a : ScoredVideo) (l : List ScoredVideo) :
    (insertByScore a l).length = l.length + 1 := by
  induction l with
  | nil => rfl
  | cons b t ih =>
    unfold insertByScore
    split
    · simp
    · simp [ih]

/-- The sort is a permutation in particular of the same length. -/
theorem length_sortByScoreDesc (l : List ScoredVideo) :
    (sortByScoreDesc l).length = l.length := by
  induction l with
  | nil => rfl
  | cons a t ih =>
    show (insertByScore a (sortByScoreDesc t)).length = t.length + 1
    rw [length_insertByScore, ih]

/-- Membership in an insertion. -/
theorem mem_insertByScore {x a : ScoredVideo} {l : List ScoredVideo} :
    x ∈ insertByScore a l ↔ x = a ∨ x ∈ l := by
  induction l with
  | nil => simp [insertByScore]
  | cons b t ih =>
    unfold insertByScore
    split
    · simp [List.mem_cons]
    · simp [List.mem_cons, ih]
      tauto

/-- Inserting into a descending list keeps it descending. -/
theorem pairwise_insertByScore {a : ScoredVideo} {l : List ScoredVideo}
    (h : List.Pairwise scoreGE l) :
    List.Pairwise scoreGE (insertByScore a l) := by
  induction l with
  | nil => simp [insertByScore]
  | cons b t ih =>
    cases h with
    | cons hb ht =>
      unfold insertByScore
      split
      · rename_i hba
        refine List.Pairwise.cons ?_ (List.Pairwise.cons hb ht)
        intro y hy
        rcases List.mem_cons.mp hy with rfl | hyt
        · exact hba
        · exact le_trans (hb y hyt) hba
      · rename_i hba
        refine List.Pairwise.cons ?_ (ih ht)
        intro y hy
        rcases mem_insertByScore.mp hy with rfl | hyt
        · exact le_of_lt (lt_of_not_le hba)
        · exact hb y hyt

/-- The sort output is descending by `engagement_score`. -/
theorem pairwise_sortByScoreDesc (l : List ScoredVideo) :
    List.Pairwise scoreGE (sortByScoreDesc l) := by
  induction l with
  | nil => exact List.Pairwise.nil
  | cons a t ih => exact pairwise_insertByScore ih

/-- Stability of one insertion: restricted to any fixed score value `q`, the
inserted list reads exactly like `a :: l` — the inserted element lands before
every equal-scored element already present. -/
theorem filter_insertByScore (a : ScoredVideo) (l : List ScoredVideo) (q : ℚ) :
    (insertByScore a l).filter
        (fun v => decide (ScoredVideo.engagement_score v = q)) =
      (a :: l).filter (fun v => decide (ScoredVideo.engagement_score v = q)) := by
  induction l with
  | nil => rfl
  | cons b t ih =>
    unfold insertByScore
    split
    · rfl
    · rename_i hba
      by_cases hpa : a.engagement_score = q
      · have hpb : ¬ b.engagement_score = q := fun hpb => hba (by rw [hpb, hpa])
        simp [List.filter_cons, hpa, hpb, ih]
      · simp [List.filter_cons, hpa, ih]

/-- Stability of the sort: for every score value `q`, the elements scoring
exactly `q` appear in the sorted list in their original relative order. -/
theorem filter_sortByScoreDesc (l : List ScoredVideo) (q : ℚ) :
    (sortByScoreDesc l).filter
        (fun v => decide (ScoredVideo.engagement_score v = q)) =
      l.filter (fun v => decide (ScoredVideo.engagement_score v = q)) := by
  induction l with
  | nil => rfl
  | cons a t ih =>
    show (insertByScore a (sortByScoreDesc t)).filter _ = _
    rw [filter_insertByScore]
    simp [List.filter_cons, ih]

/-! ### C3 — the scorer's output shape -/

/-- C3: `calculate_engagement_scores` returns `[]` on `[]` without raising;
its output is the 20-truncation of the stable descending sort of the scored
outlier survivors, hence its length is at most `min 20 (survivors)`, it is
sorted descending by `engagement_score`, and ties keep the original input
order (restricting the sorted list to any fixed score value gives exactly
the input's elements of that score, in input order). -/
theorem engagement_scores_ranking_spec (now : ℤ) (videos : List Video) :
    calculate_engagement_scores now [] = [] ∧
    calculate_engagement_scores now videos =
      (sortByScoreDesc ((videos.filter
          (fun v => ! isOutlier (commentRatios videos) (commentRatioOf v))).map
            (scoreVideo now))).take 20 ∧
    (calculate_engagement_scores now videos).length ≤
      min 20 (videos.filter
        (fun v => ! isOutlier (commentRatios videos) (commentRatioOf v))).length ∧
    List.Pairwise scoreGE (calculate_engagement_scores now videos) ∧
    (∀ q : ℚ,
      (sortByScoreDesc ((videos.filter
          (fun v => ! isOutlier (commentRatios videos) (commentRatioOf v))).map
            (scoreVideo now))).filter
          (fun v => decide (ScoredVideo.engagement_score v = q)) =
        ((videos.filter
          (fun v => ! isOutlier (commentRatios videos) (commentRatioOf v))).map
            (scoreVideo now)).filter
          (fun v => decide (ScoredVideo.engagement_score v = q))) := by
  have heq : calculate_engagement_scores now videos =
      (sortByScoreDesc ((videos.filter
        (fun v => ! isOutlier (commentRatios videos) (commentRatioOf v))).map
          (scoreVideo now))).take 20 := by
    cases videos <;> rfl
  refine ⟨rfl, heq, ?_, ?_, fun q => filter_sortByScoreDesc _ q⟩
  · rw [heq, List.length_take, length_sortByScoreDesc, List.length_map]
  · rw [heq]
    exact List.Pairwise.sublist (List.take_sublist _ _) (pairwise_sortByScoreDesc _)

/-! ### C4 — the outlier threshold -/

/-- The mean of a list of nonnegative rationals is nonnegative. -/
theorem mean_nonneg {xs : List ℚ} (h : ∀ x ∈ xs, 0 ≤ x) : 0 ≤ mean xs := by
  unfold mean
  exact div_nonneg (List.sum_nonneg h) (Nat.cast_nonneg _)

/-- The (population) variance is nonnegative. -/
theorem variance_nonneg (xs : List ℚ) : 0 ≤ variance xs := by
  unfold variance
  apply mean_nonneg
  intro y hy
  obtain ⟨x, _, rfl⟩ := List.mem_map.mp hy
  exact sq_nonneg _

/-- The sum of a constant list. -/
theorem sum_const_list {xs : List ℚ} {c : ℚ} (h : ∀ x ∈ xs, x = c) :
    xs.sum = (xs.length : ℚ) * c := by
  induction xs with
  | nil => simp
  | cons a t ih =>
    simp only [List.sum_cons, List.length_cons]
    rw [h a (List.mem_cons_self a t),
      ih (fun x hx => h x (List.mem_cons_of_mem a hx))]
    push_cast
    ring

/-- The mean of a nonempty constant list is that constant. -/
theorem mean_const {xs : List ℚ} {c : ℚ} (hne : xs ≠ []) (h : ∀ x ∈ xs, x = c) :
    mean xs = c := by
  unfold mean
  rw [sum_const_list h]
  have hlen : (xs.length : ℚ) ≠ 0 :=
    Nat.cast_ne_zero.mpr (fun h0 => hne (List.length_eq_zero.mp h0))
  exact mul_div_cancel_left₀ c hlen

/-- Every batch comment ratio is nonnegative. -/
theorem commentRatios_nonneg (videos : List Video) :
    ∀ r ∈ commentRatios videos, 0 ≤ r := by
  intro r hr
  obtain ⟨v, _, rfl⟩ := List.mem_map.mp hr
  positivity

/-- A filter that keeps everything is the identity. -/
theorem filter_true_of_all {α : Type} (p : α → Bool) (l : List α)
    (h : ∀ a ∈ l, p a = true) : l.filter p = l := by
  induction l with
  | nil => rfl
  | cons a t ih =>
    rw [List.filter_cons, if_pos (h a (List.mem_cons_self a t)),
      ih (fun x hx => h x (List.mem_cons_of_mem a hx))]

/-- The square-free `ℚ` comparison used in `isOutlier` is exactly the source
comparison `r > mean + 2·√variance` over the reals. -/
theorem outlier_iff_sqrt (m vr r : ℚ) (_hv : 0 ≤ vr) :
    (m < r ∧ 4 * vr < (r - m) ^ 2) ↔
      ((m : ℝ) + 2 * Real.sqrt ((vr : ℝ)) < ((r : ℝ))) := by
  have h4 : Real.sqrt (4 * (vr : ℝ)) = 2 * Real.sqrt ((vr : ℝ)) := by
    rw [show (4 : ℝ) * (vr : ℝ) = 2 ^ 2 * (vr : ℝ) by ring,
      Real.sqrt_mul (by norm_num) ((vr : ℝ)), Real.sqrt_sq (by norm_num)]
  constructor
  · rintro ⟨h1, h2⟩
    have h1' : (m : ℝ) < (r : ℝ) := by exact_mod_cast h1
    have h2' : 4 * (vr : ℝ) < ((r : ℝ) - (m : ℝ)) ^ 2 := by exact_mod_cast h2
    have h3 : Real.sqrt (4 * (vr : ℝ)) < (r : ℝ) - (m : ℝ) :=
      (Real.sqrt_lt' (by linarith)).mpr h2'
    rw [h4] at h3
    linarith [Real.sqrt_nonneg ((vr : ℝ))]
  · intro h
    have hs : 0 ≤ Real.sqrt ((vr : ℝ)) := Real.sqrt_nonneg _
    have h1' : (m : ℝ) < (r : ℝ) := by linarith
    have h3 : Real.sqrt (4 * (vr : ℝ)) < (r : ℝ) - (m : ℝ) := by
      rw [h4]; linarith
    have h2' : 4 * (vr : ℝ) < ((r : ℝ) - (m : ℝ)) ^ 2 :=
      (Real.sqrt_lt' (by linarith)).mp h3
    exact ⟨by exact_mod_cast h1', by exact_mod_cast h2'⟩

/-- C4: over a batch with at least one `views > 0` record, a record is
dropped by the outlier step if and only if its comment ratio strictly
exceeds `mean + 2·√variance` of the batch comment ratios (i.e. mean plus two
population standard deviations); and when all batch comment ratios are
identical the outlier filter removes nothing. -/
theorem outlier_threshold_spec (videos : List Video) :
    (commentRatios videos ≠ [] → ∀ v : Video,
      (isOutlier (commentRatios videos) (commentRatioOf v) = true ↔
        ((mean (commentRatios videos) : ℝ) +
            2 * Real.sqrt ((variance (commentRatios videos) : ℝ)) <
          ((commentRatioOf v : ℚ) : ℝ)))) ∧
    ((∀ x ∈ commentRatios videos, ∀ y ∈ commentRatios videos, x = y) →
      videos.filter
        (fun v => ! isOutlier (commentRatios videos) (commentRatioOf v)) =
        videos) := by
  constructor
  · intro _ v
    simp only [isOutlier, Bool.and_eq_true, decide_eq_true_eq]
    exact outlier_iff_sqrt _ _ _ (variance_nonneg _)
  · intro hsame
    apply filter_true_of_all
    intro v hv
    rw [Bool.not_eq_true']
    rcases Nat.eq_zero_or_pos v.views with h0 | hpos
    · have hr : commentRatioOf v = 0 := by simp [commentRatioOf, h0]
      have hm : ¬ (mean (commentRatios videos) < 0) :=
        not_lt.mpr (mean_nonneg (commentRatios_nonneg videos))
      unfold isOutlier
      rw [hr]
      simp [hm]
    · have hrmem : commentRatioOf v ∈ commentRatios videos := by
        unfold commentRatios
        apply List.mem_map.mpr
        refine ⟨v, List.mem_filter.mpr ⟨hv, by simp [hpos]⟩, ?_⟩
        simp [commentRatioOf, hpos]
      have hmean : mean (commentRatios videos) = commentRatioOf v :=
        mean_const (List.ne_nil_of_mem hrmem) (fun x hx => hsame x hx _ hrmem)
      unfold isOutlier
      rw [hmean]
      simp

/-- C4 witness: the iff instantiated on the two-ratio batch (1% and 3%) at
the record with ratio 3%, and the no-removal consequence on the batch whose
ratios are both 1%. -/
theorem outlier_threshold_spec_witness :
    (isOutlier (commentRatios demoVids) (commentRatioOf demoVidB) = true ↔
      ((mean (commentRatios demoVids) : ℝ) +
          2 * Real.sqrt ((variance (commentRatios demoVids) : ℝ)) <
        ((commentRatioOf demoVidB : ℚ) : ℝ))) ∧
    demoVidsSame.filter
        (fun v => ! isOutlier (commentRatios demoVidsSame) (commentRatioOf v)) =
      demoVidsSame :=
  ⟨(outlier_threshold_spec demoVids).1
      (by simp [commentRatios, demoVids, demoVidA, demoVidB]) demoVidB,
   (outlier_threshold_spec demoVidsSame).2
      (by norm_num [commentRatios, demoVidsSame, demoVidA, demoVidC])⟩

/-! ### C5 — the temporal buckets -/

/-- C5 counterexample: for the single record published Thursday 09:00 KST,
the Monday bucket has zero members yet its emitted row is the all-NaN
`reindex` row, not a zero-valued one — `calculate_weekday_stats` never
applies `fillna(0)` (only the hourly path does). -/
theorem weekday_zero_fill_cex :
    ([demoRow].filter (fun r => decide (seoulWeekday r.date = 0))) = [] ∧
    (calculate_weekday_stats [demoRow]).head? = some ("월요일", emptyBucketRow) ∧
    emptyBucketRow.mean_views ≠ some 0 :=
  ⟨rfl, rfl, by simp [emptyBucketRow]⟩

/-- C5 amended: both aggregations always emit the full fixed index — the 7
weekdays in canonical Monday→Sunday order and all 24 hours 0-23 — and an
hour bucket with zero members is zero-filled; but a weekday bucket with zero
members carries the missing-value (NaN) row `emptyBucketRow`, not zero-valued
aggregates, because only the hourly path applies `fillna(0)`. -/
theorem temporal_buckets_spec (rows : List StatRow) :
    (calculate_weekday_stats rows).map Prod.fst =
      ["월요일", "화요일", "수요일", "목요일", "금요일", "토요일", "일요일"] ∧
    (calculate_weekday_stats rows).length = 7 ∧
    (calculate_hourly_stats rows).map Prod.fst = List.range 24 ∧
    (calculate_hourly_stats rows).length = 24 ∧
    (∀ w ∈ weekdayOrder,
      (rows.filter (fun r => decide (seoulWeekday r.date = w.2))).isEmpty = true →
      (w.1, emptyBucketRow) ∈ calculate_weekday_stats rows) ∧
    (∀ h ∈ List.range 24,
      (rows.filter (fun r => decide (seoulHour r.date = h))).isEmpty = true →
      (h, zeroBucketRow) ∈ calculate_hourly_stats rows) := by
  refine ⟨rfl, rfl, rfl, rfl, ?_, ?_⟩
  · intro w hw hempty
    unfold calculate_weekday_stats
    exact List.mem_map.mpr ⟨w, hw, by simp [hempty]⟩
  · intro h hh hempty
    unfold calculate_hourly_stats
    exact List.mem_map.mpr ⟨h, hh, by simp [hempty]⟩

/-- C5 amended witness: all six parts at the single-record input: full
index, the empty Tuesday weekday bucket as the NaN row, the empty hour 5
bucket zero-filled. -/
theorem temporal_buckets_spec_witness :
    (calculate_weekday_stats [demoRow]).map Prod.fst =
      ["월요일", "화요일", "수요일", "목요일", "금요일", "토요일", "일요일"] ∧
    (calculate_weekday_stats [demoRow]).length = 7 ∧
    (calculate_hourly_stats [demoRow]).map Prod.fst = List.range 24 ∧
    (calculate_hourly_stats [demoRow]).length = 24 ∧
    ("화요일", emptyBucketRow) ∈ calculate_weekday_stats [demoRow] ∧
    (5, zeroBucketRow) ∈ calculate_hourly_stats [demoRow] :=
  ⟨(temporal_buckets_spec [demoRow]).1,
   (temporal_buckets_spec [demoRow]).2.1,
   (temporal_buckets_spec [demoRow]).2.2.1,
   (temporal_buckets_spec [demoRow]).2.2.2.1,
   (temporal_buckets_spec [demoRow]).2.2.2.2.1 ("화요일", 1) (by decide) rfl,
   (temporal_buckets_spec [demoRow]).2.2.2.2.2 5 (by decide) rfl⟩
